import Mathlib

/-!
Shallow embedding of `tensorflow/compiler/jit/device_util.cc` (the XLA device
picker, its `DeviceSet` bitset and its `DeviceInfoCache` interning cache),
together with theorems checking the natural-language specification of that
file.  Components whose bodies live only in the header (`ForEach`, `IsCpu`,
`IsGpu`, `GetNameFor`, `kWordSize`, the status macros) are modelled from the
spec, as noted in their doc comments; everything else is translated directly
from the source.
-/

set_option autoImplicit false

/-- Device identifiers are small non-negative integers (`DeviceId` wraps an
`int` in the source). -/
abbrev DeviceId := Nat

/-- Modelled from the spec: the bitset word width (`kWordSize`, the width of a
`uint64` storage word). -/
def kWordSize : Nat := 64

/-- `DeviceSet`: a growable bitset over device ids, represented as a sequence
of 64-bit words (`std::vector<uint64> storage_`).  Words are modelled as `Nat`;
all operations translated from the source only ever produce values below
`2 ^ 64`. -/
structure DeviceSet where
  storage_ : List Nat
  deriving DecidableEq

/-- The representation invariant guaranteed by the C++ `uint64` word type:
each storage word fits in 64 bits. -/
def DeviceSet.wf (s : DeviceSet) : Prop :=
  ∀ w ∈ s.storage_, w < 2 ^ kWordSize

instance (s : DeviceSet) : Decidable s.wf := by
  unfold DeviceSet.wf; infer_instance

/-- `DeviceSet::Insert`: set the bit for `device_id`, growing the backing
storage with zero words if needed (`storage_.resize(word_index + 1, 0)`). -/
def DeviceSet.Insert (s : DeviceSet) (device_id : DeviceId) : DeviceSet :=
  let word_index := device_id / kWordSize
  let bit_index := device_id % kWordSize
  let st :=
    if s.storage_.length ≤ word_index then
      s.storage_ ++ List.replicate (word_index + 1 - s.storage_.length) 0
    else s.storage_
  ⟨st.set word_index (st.getD word_index 0 ||| (1 <<< bit_index))⟩

/-- Pointwise bitwise OR of two word lists, keeping the tail of the first
list; models the loop `storage_[i] |= other.storage_[i]` over the words of
`other` after the resize in `DeviceSet::UnionWith`. -/
def orWords : List Nat → List Nat → List Nat
  | ws, [] => ws
  | [], _ :: _ => []
  | w :: ws, o :: os => (w ||| o) :: orWords ws os

/-- `DeviceSet::UnionWith`: in-place bitwise OR with `other`, first growing
the storage with zero words when `other` has more words. -/
def DeviceSet.UnionWith (s other : DeviceSet) : DeviceSet :=
  let st :=
    if other.storage_.length > s.storage_.length then
      s.storage_ ++ List.replicate (other.storage_.length - s.storage_.length) 0
    else s.storage_
  ⟨orWords st other.storage_⟩

/-- `DeviceSet::IsEmpty`: true iff every storage word is zero
(`absl::c_all_of`). -/
def DeviceSet.IsEmpty (s : DeviceSet) : Bool :=
  s.storage_.all (fun w => w == 0)

/-- Bitset membership: id `id` is present iff bit `id % kWordSize` of word
`id / kWordSize` is set (spec section 3: "a given id is present iff its bit is
set"). -/
def DeviceSet.member (s : DeviceSet) (id : DeviceId) : Bool :=
  (s.storage_.getD (id / kWordSize) 0).testBit (id % kWordSize)

/-- The member ids of a `DeviceSet` in ascending numeric order (word-major,
then bit-minor: exactly the order in which `ForEach` visits them). -/
def DeviceSet.memberIds (s : DeviceSet) : List DeviceId :=
  (List.range (kWordSize * s.storage_.length)).filter (fun id => s.member id)

/-- Fold with early exit: the visitor returns its new state together with a
continuation flag; `false` stops the traversal.  This is the shape of the
`ForEach` visitor protocol. -/
def foldEarly {σ : Type} (f : σ → DeviceId → σ × Bool) : List DeviceId → σ → σ
  | [], s => s
  | d :: rest, s =>
    let p := f s d
    if p.2 then foldEarly f rest p.1 else p.1

/-- Modelled from the spec: `DeviceSet::ForEach` lives in the header, which is
not part of the sources.  Spec section 4.1: it "produces ids in ascending
numeric order (word-major, then bit-minor); the visitor returns a boolean
continuation signal — returning false stops iteration early". -/
def DeviceSet.ForEach {σ : Type} (s : DeviceSet) (f : σ → DeviceId → σ × Bool)
    (init : σ) : σ :=
  foldEarly f s.memberIds init

/-- Modelled from the spec: the well-known CPU device type constant
(`DEVICE_CPU`), a fixed string token used for equality comparison during
classification. -/
def DEVICE_CPU : String := "CPU"

/-- Modelled from the spec: the well-known GPU device type constant
(`DEVICE_GPU`). -/
def DEVICE_GPU : String := "GPU"

/-- Status error categories relevant to this file. -/
inductive ErrorCategory where
  | internal
  | invalidArgument
  deriving DecidableEq

/-- The errors this file can produce, identified by their production site and
payload.  `emptyName` and `emptyDeviceSet` come from `TF_RET_CHECK`;
`malformedName` from `DeviceNameToDeviceType`; the rest from the conflict
checks of `PickDeviceForXlaImpl`. -/
inductive TfError where
  | emptyName
  | malformedName (device : String)
  | emptyDeviceSet
  | multipleCpuDevices (debug : String)
  | multipleGpuDevices (debug : String)
  | multipleUnknownDevices (debug : String)
  | unknownAndGpu (unknownName gpuName : String)
  | unknownAndCpu (unknownName cpuName : String)
  deriving DecidableEq

/-- Modelled from the spec: the status category of each error.  The
`TF_RET_CHECK` macro body is not part of the sources; spec section 4.2 calls
the empty-name failure an invalid-argument error, and all other failures of
this file are described as internal errors. -/
def TfError.category : TfError → ErrorCategory
  | .emptyName => .invalidArgument
  | _ => .internal

/-- `DeviceInfoCache`: the interning registry.  `name_to_id_` is the intern
table (a hash map in the source, modelled as an association list);
`names_`, `id_to_device_type_`, `is_cpu_`, `is_gpu_` and
`id_to_compilation_device_` are the parallel per-id sequences.  A device type
is modelled by its type string; a compilation-device registration is an opaque
non-owning reference, modelled as a `Nat`. -/
structure DeviceInfoCache where
  name_to_id_ : List (String × DeviceId)
  names_ : List String
  id_to_device_type_ : List String
  is_cpu_ : List Bool
  is_gpu_ : List Bool
  id_to_compilation_device_ : List (Option Nat)
  deriving DecidableEq

/-- The default-constructed (empty) cache. -/
def emptyDeviceInfoCache : DeviceInfoCache := ⟨[], [], [], [], [], []⟩

/-- First-match association-list lookup, the model of
`name_to_id_.find(name)`. -/
def findId : List (String × DeviceId) → String → Option DeviceId
  | [], _ => none
  | (k, v) :: rest, n => if k = n then some v else findId rest n

/-- `DeviceNameToDeviceType`: parse the device name via the external name
parser (`DeviceNameUtils::ParseFullName`, passed as `parse`, which yields the
parsed type string on success) and fail with a malformed-name internal error
when parsing fails. -/
def DeviceNameToDeviceType (parse : String → Option String) (device : String) :
    Except TfError String :=
  match parse device with
  | none => .error (.malformedName device)
  | some t => .ok t

/-- `DeviceInfoCache::GetIdFor`.  Faithful to the source order of effects:
the empty-name check, then the intern-table lookup, then `names_` and
`id_to_device_type_` are grown, then the name is parsed (returning early on
failure with those two sequences already grown), and only then are `is_cpu_`,
`is_gpu_`, the intern table and `id_to_compilation_device_` updated.  The
external collaborators are the name parser `parse` and the compilation-device
registry lookup `getCompilationDevice` (`XlaOpRegistry::GetCompilationDevice`,
whose miss is recorded as `none`).  Returns the status together with the cache
state after the call. -/
def DeviceInfoCache.GetIdFor (c : DeviceInfoCache)
    (parse : String → Option String) (getCompilationDevice : String → Option Nat)
    (name : String) : Except TfError DeviceId × DeviceInfoCache :=
  if name = "" then (.error .emptyName, c)
  else
    match findId c.name_to_id_ name with
    | some id => (.ok id, c)
    | none =>
      let new_id := c.names_.length
      match DeviceNameToDeviceType parse name with
      | .error e =>
        (.error e,
         { c with
            names_ := c.names_ ++ [name]
            id_to_device_type_ := c.id_to_device_type_ ++ [""] })
      | .ok device_type =>
        (.ok new_id,
         { name_to_id_ := c.name_to_id_ ++ [(name, new_id)]
           names_ := c.names_ ++ [name]
           id_to_device_type_ := c.id_to_device_type_ ++ [device_type]
           is_cpu_ := c.is_cpu_ ++ [device_type == DEVICE_CPU]
           is_gpu_ := c.is_gpu_ ++ [device_type == DEVICE_GPU]
           id_to_compilation_device_ :=
             c.id_to_compilation_device_ ++ [getCompilationDevice device_type] })

/-- Modelled from the spec: `DeviceInfoCache::IsCpu` lives in the header;
spec section 4.2: an O(1) attribute lookup by id. -/
def DeviceInfoCache.IsCpu (c : DeviceInfoCache) (device : DeviceId) : Bool :=
  c.is_cpu_.getD device false

/-- Modelled from the spec: `DeviceInfoCache::IsGpu` lives in the header;
spec section 4.2: an O(1) attribute lookup by id. -/
def DeviceInfoCache.IsGpu (c : DeviceInfoCache) (device : DeviceId) : Bool :=
  c.is_gpu_.getD device false

/-- Modelled from the spec: `DeviceInfoCache::GetNameFor` lives in the header;
spec section 4.2: an O(1) lookup of the original string. -/
def DeviceInfoCache.GetNameFor (c : DeviceInfoCache) (device : DeviceId) : String :=
  c.names_.getD device ""

/-- `absl::StrJoin` with a separator, as used by `DebugString`. -/
def strJoin (sep : String) : List String → String
  | [] => ""
  | [x] => x
  | x :: y :: rest => x ++ sep ++ strJoin sep (y :: rest)

/-- `DeviceInfoCache::DebugString`: collect names over the set via `ForEach`
and join them.  The source visitor returns `false` after pushing a name, so
under the `ForEach` contract the traversal stops after the first member. -/
def DeviceInfoCache.DebugString (c : DeviceInfoCache) (device_set : DeviceSet) :
    String :=
  let names := device_set.ForEach
    (fun acc device_id => (acc ++ [c.GetNameFor device_id], false))
    ([] : List String)
  "[" ++ strJoin "," names ++ "]"

/-- The mutable state of the classification loop of `PickDeviceForXlaImpl`:
the three remembered devices and the three multiplicity flags. -/
structure ScanState where
  maybe_gpu_device : Option DeviceId
  maybe_cpu_device : Option DeviceId
  maybe_unknown_device : Option DeviceId
  multiple_cpu_devices : Bool
  multiple_gpu_devices : Bool
  multiple_unknown_devices : Bool
  deriving DecidableEq

/-- The loop state before iteration starts. -/
def initScanState : ScanState := ⟨none, none, none, false, false, false⟩

/-- One iteration of the `ForEach` visitor of `PickDeviceForXlaImpl`:
classify `device` via `IsGpu`, then `IsCpu`, else unknown; on a second device
in the same bucket set the multiplicity flag and stop (return `false`). -/
def scanStep (c : DeviceInfoCache) (st : ScanState) (device : DeviceId) :
    ScanState × Bool :=
  if c.IsGpu device then
    match st.maybe_gpu_device with
    | some _ => ({ st with multiple_gpu_devices := true }, false)
    | none => ({ st with maybe_gpu_device := some device }, true)
  else if c.IsCpu device then
    match st.maybe_cpu_device with
    | some _ => ({ st with multiple_cpu_devices := true }, false)
    | none => ({ st with maybe_cpu_device := some device }, true)
  else
    match st.maybe_unknown_device with
    | some _ => ({ st with multiple_unknown_devices := true }, false)
    | none => ({ st with maybe_unknown_device := some device }, true)

/-- The classification loop run over an explicit id list. -/
def scanList (c : DeviceInfoCache) (ids : List DeviceId) (st : ScanState) :
    ScanState :=
  foldEarly (scanStep c) ids st

/-- Outcome of the body of `PickDeviceForXlaImpl` past the empty-set check:
either some conflict fired (`FAILED_TO_PICK_DEVICE` was reached with the given
status) or a device was picked. -/
inductive PickResult where
  | conflict (e : TfError)
  | picked (d : DeviceId)
  deriving DecidableEq

/-- The part of `PickDeviceForXlaImpl` after the empty-set check and the
classification loop (whose final state is `st`): the conflict checks in source
order — multiple CPU, multiple GPU, multiple unknown, unknown+GPU, then
unknown+CPU (the last one only when mixing is not allowed) — followed by the
selection of the device: the GPU one if present, else the unknown one, else
the CPU one. -/
def pickOutcome (c : DeviceInfoCache) (devices : DeviceSet)
    (allow_mixing_unknown_and_cpu : Bool) (st : ScanState) : PickResult :=
  if st.multiple_cpu_devices then
    .conflict (.multipleCpuDevices (c.DebugString devices))
  else if st.multiple_gpu_devices then
    .conflict (.multipleGpuDevices (c.DebugString devices))
  else if st.multiple_unknown_devices then
    .conflict (.multipleUnknownDevices (c.DebugString devices))
  else if st.maybe_unknown_device.isSome && st.maybe_gpu_device.isSome then
    .conflict (.unknownAndGpu
      (c.GetNameFor (st.maybe_unknown_device.getD 0))
      (c.GetNameFor (st.maybe_gpu_device.getD 0)))
  else if !allow_mixing_unknown_and_cpu &&
      (st.maybe_unknown_device.isSome && st.maybe_cpu_device.isSome) then
    .conflict (.unknownAndCpu
      (c.GetNameFor (st.maybe_unknown_device.getD 0))
      (c.GetNameFor (st.maybe_cpu_device.getD 0)))
  else
    .picked
      (match st.maybe_gpu_device with
       | some g => g
       | none =>
         match st.maybe_unknown_device with
         | some u => u
         | none => st.maybe_cpu_device.getD 0)

/-- `PickDeviceForXlaImpl`.  The empty-set `TF_RET_CHECK` is a hard error in
both call forms; every conflict goes through `FAILED_TO_PICK_DEVICE`, modelled
as the `PickResult.conflict` outcome so that each wrapper can either surface
it as a failure or fold it into a boolean. -/
def PickDeviceForXlaImpl (c : DeviceInfoCache) (devices : DeviceSet)
    (allow_mixing_unknown_and_cpu : Bool) : Except TfError PickResult :=
  if devices.IsEmpty then .error .emptyDeviceSet
  else
    .ok (pickOutcome c devices allow_mixing_unknown_and_cpu
      (devices.ForEach (scanStep c) initScanState))

/-- `PickDeviceForXla`, the must-succeed form: surfaces every conflict as the
failing status. -/
def PickDeviceForXla (c : DeviceInfoCache) (devices : DeviceSet)
    (allow_mixing_unknown_and_cpu : Bool) : Except TfError DeviceId :=
  match PickDeviceForXlaImpl c devices allow_mixing_unknown_and_cpu with
  | .error e => .error e
  | .ok (.conflict e) => .error e
  | .ok (.picked d) => .ok d

/-- `CanPickDeviceForXla`, the can-pick form: folds every conflict into the
boolean `false`, but still propagates hard errors (the empty-set check). -/
def CanPickDeviceForXla (c : DeviceInfoCache) (devices : DeviceSet)
    (allow_mixing_unknown_and_cpu : Bool) : Except TfError Bool :=
  match PickDeviceForXlaImpl c devices allow_mixing_unknown_and_cpu with
  | .error e => .error e
  | .ok (.conflict _) => .ok false
  | .ok (.picked _) => .ok true

/-- The three classification buckets of the picker. -/
inductive DevClass where
  | gpu
  | cpu
  | unknown
  deriving DecidableEq

/-- The bucket a device falls into, mirroring the test order of the scan:
`IsGpu` first, then `IsCpu`, else unknown. -/
def classOf (c : DeviceInfoCache) (d : DeviceId) : DevClass :=
  if c.IsGpu d then .gpu else if c.IsCpu d then .cpu else .unknown

/-- The sublist of `ids` falling into bucket `cls`, in order. -/
def listOfClass (c : DeviceInfoCache) (cls : DevClass) (ids : List DeviceId) :
    List DeviceId :=
  ids.filter (fun d => classOf c d == cls)

/-- The members of `s` falling into bucket `cls`, in ascending id order. -/
def classMembers (c : DeviceInfoCache) (s : DeviceSet) (cls : DevClass) :
    List DeviceId :=
  listOfClass c cls s.memberIds

/-- How many members of `s` fall into bucket `cls`. -/
def classCount (c : DeviceInfoCache) (s : DeviceSet) (cls : DevClass) : Nat :=
  (classMembers c s cls).length

/-- The bucket that first receives a second device while walking `ids` in
order, given which buckets already hold a device (`sg`, `sc`, `su`); `none`
when no bucket ever doubles.  This is the specification-level description of
which multiplicity flag the fail-fast scan raises. -/
def firstDoubled (c : DeviceInfoCache) :
    List DeviceId → Bool → Bool → Bool → Option DevClass
  | [], _, _, _ => none
  | d :: rest, sg, sc, su =>
    if c.IsGpu d then
      if sg then some .gpu else firstDoubled c rest true sc su
    else if c.IsCpu d then
      if sc then some .cpu else firstDoubled c rest sg true su
    else
      if su then some .unknown else firstDoubled c rest sg sc true

/-- A bucket occupancy as a list: the already-remembered device (if any)
followed by the bucket members still to come. -/
def seenPlus (so : Option DeviceId) (l : List DeviceId) : List DeviceId :=
  so.toList ++ l

/-- The multiplicity error for a bucket, with its debug payload. -/
def multiplicityError : DevClass → String → TfError
  | .cpu => .multipleCpuDevices
  | .gpu => .multipleGpuDevices
  | .unknown => .multipleUnknownDevices

/-- The scan state produced by the classification pass of
`PickDeviceForXlaImpl` on a device set. -/
def scannedState (c : DeviceInfoCache) (s : DeviceSet) : ScanState :=
  scanList c s.memberIds initScanState

/-- Example cache interning a CPU device (id 0) and a GPU device (id 1). -/
def cacheCpuGpu : DeviceInfoCache :=
  ⟨[("/device:CPU:0", 0), ("/device:GPU:0", 1)],
   ["/device:CPU:0", "/device:GPU:0"],
   ["CPU", "GPU"],
   [true, false],
   [false, true],
   [none, none]⟩

/-- The set holding ids 0 and 1 (one word, low two bits set). -/
def setCpuGpu : DeviceSet := ⟨[3]⟩

/-- Example cache with two CPU devices (ids 0, 1) and two GPU devices
(ids 2, 3). -/
def cacheTwoCpuTwoGpu : DeviceInfoCache :=
  ⟨[("/device:CPU:0", 0), ("/device:CPU:1", 1),
    ("/device:GPU:0", 2), ("/device:GPU:1", 3)],
   ["/device:CPU:0", "/device:CPU:1", "/device:GPU:0", "/device:GPU:1"],
   ["CPU", "CPU", "GPU", "GPU"],
   [true, true, false, false],
   [false, false, true, true],
   [none, none, none, none]⟩

/-- The set holding ids 0 through 3 (one word, low four bits set). -/
def setFour : DeviceSet := ⟨[15]⟩

/-- Example cache with a CPU device (id 0) and an unknown-class device
(id 1, an accelerator with a compilation registration). -/
def cacheCpuUnknown : DeviceInfoCache :=
  ⟨[("/device:CPU:0", 0), ("/device:XPU:0", 1)],
   ["/device:CPU:0", "/device:XPU:0"],
   ["CPU", "XPU"],
   [true, false],
   [false, false],
   [none, some 7]⟩

/-- Example cache with an unknown-class device (id 0) and a GPU device
(id 1). -/
def cacheUnknownGpu : DeviceInfoCache :=
  ⟨[("/device:XPU:0", 0), ("/device:GPU:0", 1)],
   ["/device:XPU:0", "/device:GPU:0"],
   ["XPU", "GPU"],
   [false, false],
   [false, true],
   [none, none]⟩

/-- A copy of `cacheCpuGpu` whose memoized compilation-registration entries
differ; names and CPU/GPU classification agree on every id. -/
def cacheCpuGpuAltReg : DeviceInfoCache :=
  ⟨[("/device:CPU:0", 0), ("/device:GPU:0", 1)],
   ["/device:CPU:0", "/device:GPU:0"],
   ["CPU", "GPU"],
   [true, false],
   [false, true],
   [some 3, some 5]⟩

/-- A name parser that accepts only the well-formed name
`"/device:CPU:0"`. -/
def parseCpuOnly : String → Option String :=
  fun n => if n = "/device:CPU:0" then some DEVICE_CPU else none

/-- A compilation-device registry with no registrations. -/
def registryNone : String → Option Nat := fun _ => none

/-! ## Basic list and word lemmas -/

lemma getD_zero_mem_or (l : List Nat) (i : Nat) :
    l.getD i 0 ∈ l ∨ l.getD i 0 = 0 := by
  induction l generalizing i with
  | nil => right; rfl
  | cons w ws ih =>
    cases i with
    | zero => left; exact List.mem_cons_self w ws
    | succ j =>
      rcases ih j with h | h
      · left; exact List.mem_cons_of_mem w h
      · right; exact h

lemma getD_replicate_zero (k i : Nat) :
    (List.replicate k (0 : Nat)).getD i 0 = 0 := by
  induction k generalizing i with
  | zero => rfl
  | succ k ih => cases i with
    | zero => rfl
    | succ j => exact ih j

lemma getD_append_replicate_zero (ws : List Nat) (k i : Nat) :
    (ws ++ List.replicate k 0).getD i 0 = ws.getD i 0 := by
  induction ws generalizing i with
  | nil => simp only [List.nil_append]; exact getD_replicate_zero k i
  | cons w ws ih => cases i with
    | zero => rfl
    | succ j => exact ih j

lemma getD_of_lt (l : List Nat) (k : Nat) (hk : k < l.length) :
    l.getD k 0 = l[k] := by
  induction l generalizing k with
  | nil => simp at hk
  | cons w ws ih =>
    cases k with
    | zero => rfl
    | succ j => exact ih j (by simpa using hk)

lemma orWords_nil (ws : List Nat) : orWords ws [] = ws := by
  cases ws <;> rfl

lemma orWords_length (ws os : List Nat) (h : os.length ≤ ws.length) :
    (orWords ws os).length = ws.length := by
  induction os generalizing ws with
  | nil => rw [orWords_nil]
  | cons o os ih =>
    cases ws with
    | nil => simp at h
    | cons w ws => simpa [orWords] using ih ws (by simpa using h)

lemma orWords_getD (ws os : List Nat) (i : Nat) (h : os.length ≤ ws.length) :
    (orWords ws os).getD i 0 = ws.getD i 0 ||| os.getD i 0 := by
  induction os generalizing ws i with
  | nil => rw [orWords_nil]; cases i <;> simp
  | cons o os ih =>
    cases ws with
    | nil => simp at h
    | cons w ws =>
      cases i with
      | zero => rfl
      | succ j => simpa [orWords] using ih ws j (by simpa using h)

lemma orWords_idem (ws os : List Nat) (h : os.length ≤ ws.length) :
    orWords (orWords ws os) os = orWords ws os := by
  induction os generalizing ws with
  | nil => rw [orWords_nil, orWords_nil]
  | cons o os ih =>
    cases ws with
    | nil => simp at h
    | cons w ws =>
      simp only [orWords]
      rw [Nat.or_assoc, Nat.or_self, ih ws (by simpa using h)]

lemma eq_of_storage_ {a b : DeviceSet} (h : a.storage_ = b.storage_) : a = b := by
  cases a; cases b; cases h; rfl

lemma unionWith_storage (s other : DeviceSet) :
    (s.UnionWith other).storage_ =
      orWords
        (if other.storage_.length > s.storage_.length then
          s.storage_ ++
            List.replicate (other.storage_.length - s.storage_.length) 0
         else s.storage_)
        other.storage_ := rfl

lemma unionWith_storage_length_ge (s other : DeviceSet) :
    other.storage_.length ≤ (s.UnionWith other).storage_.length := by
  rw [unionWith_storage]
  by_cases h : other.storage_.length > s.storage_.length
  · rw [if_pos h, orWords_length] <;> simp <;> omega
  · rw [if_neg h, orWords_length] <;> omega

lemma unionWith_getD (s other : DeviceSet) (i : Nat) :
    (s.UnionWith other).storage_.getD i 0 =
      s.storage_.getD i 0 ||| other.storage_.getD i 0 := by
  rw [unionWith_storage]
  by_cases h : other.storage_.length > s.storage_.length
  · rw [if_pos h, orWords_getD, getD_append_replicate_zero]
    simp; omega
  · rw [if_neg h, orWords_getD]
    omega

/-! ## C9: UnionWith is membership-OR, idempotent and commutative -/

/-- C9: `UnionWith` computes membership as the logical OR of the two
operands' memberships for every id, repeating `A.UnionWith(B)` a second time
changes nothing, and unioning in either order yields the same membership for
every id. -/
theorem unionWith_or_idem_comm (A B : DeviceSet) :
    ((A.UnionWith B).UnionWith B = A.UnionWith B) ∧
    (∀ id, (A.UnionWith B).member id = (A.member id || B.member id)) ∧
    (∀ id, (A.UnionWith B).member id = (B.UnionWith A).member id) := by
  have hmem : ∀ id, (A.UnionWith B).member id = (A.member id || B.member id) := by
    intro id
    simp only [DeviceSet.member, unionWith_getD, Nat.testBit_or]
  refine ⟨?_, hmem, ?_⟩
  · apply eq_of_storage_
    have hlen : B.storage_.length ≤ (A.UnionWith B).storage_.length :=
      unionWith_storage_length_ge A B
    rw [unionWith_storage (A.UnionWith B) B, if_neg (by omega)]
    rw [unionWith_storage A B]
    apply orWords_idem
    by_cases h : B.storage_.length > A.storage_.length
    · rw [if_pos h]
      simp only [List.length_append, List.length_replicate]
      omega
    · rw [if_neg h]
      omega
  · intro id
    have hmem2 : (B.UnionWith A).member id = (B.member id || A.member id) := by
      simp only [DeviceSet.member, unionWith_getD, Nat.testBit_or]
    rw [hmem, hmem2, Bool.or_comm]

/-! ## Intern-cache lemmas and claims C5, C6, C7 -/

lemma findId_cons (k : String) (v : DeviceId) (rest : List (String × DeviceId))
    (n : String) :
    findId ((k, v) :: rest) n = if k = n then some v else findId rest n := rfl

lemma findId_append_none (l l2 : List (String × DeviceId)) (n : String)
    (h : findId l n = none) : findId (l ++ l2) n = findId l2 n := by
  induction l with
  | nil => rfl
  | cons p rest ih =>
    obtain ⟨k, v⟩ := p
    rw [findId_cons] at h
    by_cases hk : k = n
    · rw [if_pos hk] at h
      exact absurd h (by simp)
    · rw [if_neg hk] at h
      rw [List.cons_append, findId_cons, if_neg hk]
      exact ih h

lemma getIdFor_found (parse : String → Option String)
    (getCompilationDevice : String → Option Nat) (c : DeviceInfoCache)
    (name : String) (id : DeviceId) (hne : name ≠ "")
    (hfound : findId c.name_to_id_ name = some id) :
    c.GetIdFor parse getCompilationDevice name = (.ok id, c) := by
  unfold DeviceInfoCache.GetIdFor
  rw [if_neg hne, hfound]

/-- C7: `GetIdFor` applied to the empty string fails with the invalid-argument
empty-name error before any mutation, leaving the cache unchanged. -/
theorem getIdFor_empty_name (parse : String → Option String)
    (getCompilationDevice : String → Option Nat) (c : DeviceInfoCache) :
    c.GetIdFor parse getCompilationDevice "" = (.error .emptyName, c) ∧
    TfError.emptyName.category = .invalidArgument :=
  ⟨rfl, rfl⟩

/-- C5 counterexample: a failed parse during interning does mutate the cache.
Interning the unparsable name `"x"` into the empty cache returns the
malformed-name error, allocates no id (the intern table stays empty and the
attribute sequences stay empty), yet the name sequence has grown to `["x"]`,
so the cache differs from the one before the call and the name sequence is
longer than the number of successfully interned names (zero). -/
theorem getIdFor_parse_failure_counterexample :
    (emptyDeviceInfoCache.GetIdFor (fun _ => none) registryNone "x").1 =
        .error (.malformedName "x") ∧
    (emptyDeviceInfoCache.GetIdFor (fun _ => none) registryNone "x").2.names_ =
        ["x"] ∧
    (emptyDeviceInfoCache.GetIdFor (fun _ => none) registryNone "x").2.is_cpu_ =
        [] ∧
    (emptyDeviceInfoCache.GetIdFor (fun _ => none) registryNone
        "x").2.name_to_id_ = [] ∧
    (emptyDeviceInfoCache.GetIdFor (fun _ => none) registryNone "x").2 ≠
        emptyDeviceInfoCache := by
  refine ⟨rfl, rfl, rfl, rfl, ?_⟩
  decide

/-- C5 (amended): when parsing a new non-empty name fails, `GetIdFor` returns
the malformed-name error and allocates no id — the intern table and the
`is_cpu_`, `is_gpu_` and compilation-device sequences are unchanged — but the
name sequence and the device-type sequence each grow by one orphan entry, so
the name sequence no longer matches the number of successfully interned
names. -/
theorem getIdFor_parse_failure (parse : String → Option String)
    (getCompilationDevice : String → Option Nat) (c : DeviceInfoCache)
    (name : String) (hne : name ≠ "")
    (hnew : findId c.name_to_id_ name = none) (hp : parse name = none) :
    c.GetIdFor parse getCompilationDevice name =
      (.error (.malformedName name),
       { c with
          names_ := c.names_ ++ [name]
          id_to_device_type_ := c.id_to_device_type_ ++ [""] }) := by
  unfold DeviceInfoCache.GetIdFor DeviceNameToDeviceType
  rw [if_neg hne, hnew, hp]

/-- C5 witness: the amended statement applied to the empty cache, a parser
that rejects everything, and the name `"y"`. -/
theorem getIdFor_parse_failure_witness :
    emptyDeviceInfoCache.GetIdFor (fun _ => none) registryNone "y" =
      (.error (.malformedName "y"),
       { emptyDeviceInfoCache with
          names_ := emptyDeviceInfoCache.names_ ++ ["y"]
          id_to_device_type_ := emptyDeviceInfoCache.id_to_device_type_ ++ [""] }) :=
  getIdFor_parse_failure (fun _ => none) registryNone emptyDeviceInfoCache "y"
    (by decide) rfl rfl

/-- C6: interning a new well-formed non-empty name succeeds with the next id,
grows the intern table by exactly one entry, and a second call with the same
name returns the same id while leaving the cache completely unchanged (so the
size grows by zero on the second call). -/
theorem getIdFor_idempotent (parse : String → Option String)
    (getCompilationDevice : String → Option Nat) (c : DeviceInfoCache)
    (name t : String) (hne : name ≠ "")
    (hnew : findId c.name_to_id_ name = none) (hp : parse name = some t) :
    ∃ id,
      (c.GetIdFor parse getCompilationDevice name).1 = .ok id ∧
      (c.GetIdFor parse getCompilationDevice
          name).2.name_to_id_.length = c.name_to_id_.length + 1 ∧
      (c.GetIdFor parse getCompilationDevice name).2.GetIdFor parse
          getCompilationDevice name =
        (.ok id, (c.GetIdFor parse getCompilationDevice name).2) := by
  have hstep : c.GetIdFor parse getCompilationDevice name =
      (.ok c.names_.length,
       ⟨c.name_to_id_ ++ [(name, c.names_.length)], c.names_ ++ [name],
        c.id_to_device_type_ ++ [t], c.is_cpu_ ++ [t == DEVICE_CPU],
        c.is_gpu_ ++ [t == DEVICE_GPU],
        c.id_to_compilation_device_ ++ [getCompilationDevice t]⟩) := by
    unfold DeviceInfoCache.GetIdFor DeviceNameToDeviceType
    rw [if_neg hne, hnew, hp]
  refine ⟨c.names_.length, ?_, ?_, ?_⟩
  · rw [hstep]
  · rw [hstep]
    simp
  · rw [hstep]
    exact getIdFor_found parse getCompilationDevice _ name c.names_.length hne
      (by
        show findId (c.name_to_id_ ++ [(name, c.names_.length)]) name =
          some c.names_.length
        rw [findId_append_none _ _ _ hnew, findId_cons, if_pos rfl])

/-- C6 witness: interning `"/device:CPU:0"` into the empty cache with a
parser that accepts it. -/
theorem getIdFor_idempotent_witness :
    ∃ id,
      (emptyDeviceInfoCache.GetIdFor parseCpuOnly registryNone
          "/device:CPU:0").1 = .ok id ∧
      (emptyDeviceInfoCache.GetIdFor parseCpuOnly registryNone
          "/device:CPU:0").2.name_to_id_.length =
        emptyDeviceInfoCache.name_to_id_.length + 1 ∧
      (emptyDeviceInfoCache.GetIdFor parseCpuOnly registryNone
          "/device:CPU:0").2.GetIdFor parseCpuOnly registryNone
          "/device:CPU:0" =
        (.ok id,
         (emptyDeviceInfoCache.GetIdFor parseCpuOnly registryNone
            "/device:CPU:0").2) :=
  getIdFor_idempotent parseCpuOnly registryNone emptyDeviceInfoCache
    "/device:CPU:0" "CPU" (by decide) rfl rfl

/-! ## C8: DebugString drops all members after the first -/

/-- C8 (code bug witness): on the set holding the devices named
`"/device:CPU:0"` (id 0) and `"/device:GPU:0"` (id 1), `DebugString` renders
only the first member inside the brackets, because the source visitor returns
`false` — the abort signal of the `ForEach` contract — after every name, so
the traversal stops after id 0 and the GPU name is dropped. -/
theorem debugString_drops_members :
    setCpuGpu.memberIds = [0, 1] ∧
    cacheCpuGpu.GetNameFor 0 = "/device:CPU:0" ∧
    cacheCpuGpu.GetNameFor 1 = "/device:GPU:0" ∧
    cacheCpuGpu.DebugString setCpuGpu = "[/device:CPU:0]" :=
  ⟨by decide, rfl, rfl, rfl⟩

/-! ## C4: relation between the can-pick and must-succeed forms -/

lemma impl_isOk (c : DeviceInfoCache) (s : DeviceSet) (allow : Bool)
    (h : s.IsEmpty = false) :
    ∃ r, PickDeviceForXlaImpl c s allow = .ok r := by
  unfold PickDeviceForXlaImpl
  rw [if_neg (by simp [h])]
  exact ⟨_, rfl⟩

/-- C4 counterexample: on the empty device set the must-succeed form fails,
but the can-pick form does not return `false` — it fails with the very same
hard error, so the claimed dichotomy (false exactly on failing inputs, true
otherwise) does not hold there. -/
theorem canPick_empty_set_counterexample :
    PickDeviceForXla cacheCpuGpu ⟨[]⟩ false = .error .emptyDeviceSet ∧
    CanPickDeviceForXla cacheCpuGpu ⟨[]⟩ false = .error .emptyDeviceSet ∧
    CanPickDeviceForXla cacheCpuGpu ⟨[]⟩ false ≠ .ok false := by
  refine ⟨rfl, rfl, ?_⟩
  intro hcontra
  exact Except.noConfusion hcontra

/-- C4 (amended): on every non-empty device set, the can-pick form returns a
boolean, and it returns `false` exactly when the must-succeed form fails and
`true` exactly when the must-succeed form returns a chosen device.  (On the
empty set both forms instead fail with the same empty-set error.) -/
theorem canPick_iff_pick (c : DeviceInfoCache) (s : DeviceSet) (allow : Bool)
    (h : s.IsEmpty = false) :
    (CanPickDeviceForXla c s allow = .ok false ↔
      ∃ e, PickDeviceForXla c s allow = .error e) ∧
    (CanPickDeviceForXla c s allow = .ok true ↔
      ∃ d, PickDeviceForXla c s allow = .ok d) := by
  obtain ⟨r, hr⟩ := impl_isOk c s allow h
  unfold CanPickDeviceForXla PickDeviceForXla
  rw [hr]
  cases r with
  | conflict e =>
    constructor
    · simp only [true_iff]
      exact ⟨e, rfl⟩
    · simp
  | picked d =>
    constructor
    · simp
    · simp only [true_iff]
      exact ⟨d, rfl⟩

/-- C4 witness: the amended equivalence at a concrete non-empty set (one CPU
and one GPU device). -/
theorem canPick_iff_pick_witness :
    (CanPickDeviceForXla cacheCpuGpu setCpuGpu false = .ok false ↔
      ∃ e, PickDeviceForXla cacheCpuGpu setCpuGpu false = .error e) ∧
    (CanPickDeviceForXla cacheCpuGpu setCpuGpu false = .ok true ↔
      ∃ d, PickDeviceForXla cacheCpuGpu setCpuGpu false = .ok d) :=
  canPick_iff_pick cacheCpuGpu setCpuGpu false rfl

/-! ## Characterization of the fail-fast classification scan -/

lemma scanList_nil (c : DeviceInfoCache) (st : ScanState) :
    scanList c [] st = st := rfl

lemma listOfClass_nil (c : DeviceInfoCache) (cls : DevClass) :
    listOfClass c cls [] = [] := rfl

lemma listOfClass_cons_eq (c : DeviceInfoCache) (cls : DevClass) (d : DeviceId)
    (ids : List DeviceId) (h : classOf c d = cls) :
    listOfClass c cls (d :: ids) = d :: listOfClass c cls ids := by
  simp [listOfClass, List.filter_cons, h]

lemma listOfClass_cons_ne (c : DeviceInfoCache) (cls : DevClass) (d : DeviceId)
    (ids : List DeviceId) (h : classOf c d ≠ cls) :
    listOfClass c cls (d :: ids) = listOfClass c cls ids := by
  simp [listOfClass, List.filter_cons, h]

lemma seenPlus_none (l : List DeviceId) : seenPlus none l = l := rfl

lemma seenPlus_some (a : DeviceId) (l : List DeviceId) :
    seenPlus (some a) l = a :: l := rfl

/-- The central invariant of the classification loop, proved along the id
list with the already-remembered bucket occupants generalized.  If some
bucket doubles first (`firstDoubled` is `some cls`) then the loop stops with
exactly that bucket's multiplicity flag set, and that bucket really holds at
least two devices; if no bucket ever doubles, the loop runs to completion
with no flag set, each `maybe` slot holding the first device of its bucket,
and every bucket holding at most one device. -/
lemma scan_master (c : DeviceInfoCache) (ids : List DeviceId) :
    ∀ sg sc su : Option DeviceId,
    (firstDoubled c ids sg.isSome sc.isSome su.isSome = some DevClass.gpu →
       (scanList c ids ⟨sg, sc, su, false, false, false⟩).multiple_gpu_devices
           = true ∧
       (scanList c ids ⟨sg, sc, su, false, false, false⟩).multiple_cpu_devices
           = false ∧
       (scanList c ids
           ⟨sg, sc, su, false, false, false⟩).multiple_unknown_devices
           = false ∧
       2 ≤ (seenPlus sg (listOfClass c DevClass.gpu ids)).length) ∧
    (firstDoubled c ids sg.isSome sc.isSome su.isSome = some DevClass.cpu →
       (scanList c ids ⟨sg, sc, su, false, false, false⟩).multiple_cpu_devices
           = true ∧
       (scanList c ids ⟨sg, sc, su, false, false, false⟩).multiple_gpu_devices
           = false ∧
       (scanList c ids
           ⟨sg, sc, su, false, false, false⟩).multiple_unknown_devices
           = false ∧
       2 ≤ (seenPlus sc (listOfClass c DevClass.cpu ids)).length) ∧
    (firstDoubled c ids sg.isSome sc.isSome su.isSome = some DevClass.unknown →
       (scanList c ids
           ⟨sg, sc, su, false, false, false⟩).multiple_unknown_devices
           = true ∧
       (scanList c ids ⟨sg, sc, su, false, false, false⟩).multiple_cpu_devices
           = false ∧
       (scanList c ids ⟨sg, sc, su, false, false, false⟩).multiple_gpu_devices
           = false ∧
       2 ≤ (seenPlus su (listOfClass c DevClass.unknown ids)).length) ∧
    (firstDoubled c ids sg.isSome sc.isSome su.isSome = none →
       scanList c ids ⟨sg, sc, su, false, false, false⟩ =
         ⟨(seenPlus sg (listOfClass c DevClass.gpu ids)).head?,
          (seenPlus sc (listOfClass c DevClass.cpu ids)).head?,
          (seenPlus su (listOfClass c DevClass.unknown ids)).head?,
          false, false, false⟩ ∧
       (seenPlus sg (listOfClass c DevClass.gpu ids)).length ≤ 1 ∧
       (seenPlus sc (listOfClass c DevClass.cpu ids)).length ≤ 1 ∧
       (seenPlus su (listOfClass c DevClass.unknown ids)).length ≤ 1) := by
  induction ids with
  | nil =>
    intro sg sc su
    refine ⟨by intro h; simp [firstDoubled] at h,
            by intro h; simp [firstDoubled] at h,
            by intro h; simp [firstDoubled] at h,
            fun _ => ⟨?_, ?_, ?_, ?_⟩⟩
    · cases sg <;> cases sc <;> cases su <;> rfl
    · cases sg <;> simp [seenPlus, listOfClass_nil]
    · cases sc <;> simp [seenPlus, listOfClass_nil]
    · cases su <;> simp [seenPlus, listOfClass_nil]
  | cons d rest ih =>
    intro sg sc su
    cases hg : c.IsGpu d with
    | true =>
      have hcls : classOf c d = DevClass.gpu := by simp [classOf, hg]
      have hL := listOfClass_cons_eq c DevClass.gpu d rest hcls
      have hLc := listOfClass_cons_ne c DevClass.cpu d rest (by rw [hcls]; simp)
      have hLu := listOfClass_cons_ne c DevClass.unknown d rest
        (by rw [hcls]; simp)
      cases sg with
      | some g0 =>
        have hfd : firstDoubled c (d :: rest) (some g0 : Option DeviceId).isSome
            sc.isSome su.isSome = some DevClass.gpu := by
          simp [firstDoubled, hg]
        have hscan : scanList c (d :: rest) ⟨some g0, sc, su, false, false, false⟩
            = ⟨some g0, sc, su, false, true, false⟩ := by
          simp [scanList, foldEarly, scanStep, hg]
        refine ⟨fun _ => ?_, fun h => ?_, fun h => ?_, fun h => ?_⟩
        · refine ⟨by rw [hscan], by rw [hscan], by rw [hscan], ?_⟩
          rw [hL]
          simp only [seenPlus_some, List.length_cons]
          omega
        · rw [hfd] at h; simp at h
        · rw [hfd] at h; simp at h
        · rw [hfd] at h; simp at h
      | none =>
        have hfd : firstDoubled c (d :: rest) (none : Option DeviceId).isSome
            sc.isSome su.isSome = firstDoubled c rest true sc.isSome su.isSome := by
          simp [firstDoubled, hg]
        have hscan : scanList c (d :: rest) ⟨none, sc, su, false, false, false⟩
            = scanList c rest ⟨some d, sc, su, false, false, false⟩ := by
          simp [scanList, foldEarly, scanStep, hg]
        obtain ⟨ih1, ih2, ih3, ih4⟩ := ih (some d) sc su
        refine ⟨fun h => ?_, fun h => ?_, fun h => ?_, fun h => ?_⟩
        · rw [hfd] at h
          obtain ⟨f1, f2, f3, f4⟩ := ih1 h
          rw [hscan]
          refine ⟨f1, f2, f3, ?_⟩
          rw [hL]
          simp only [seenPlus_none, List.length_cons]
          simp only [seenPlus_some, List.length_cons] at f4
          omega
        · rw [hfd] at h
          obtain ⟨f1, f2, f3, f4⟩ := ih2 h
          rw [hscan]
          refine ⟨f1, f2, f3, ?_⟩
          rw [hLc]
          exact f4
        · rw [hfd] at h
          obtain ⟨f1, f2, f3, f4⟩ := ih3 h
          rw [hscan]
          refine ⟨f1, f2, f3, ?_⟩
          rw [hLu]
          exact f4
        · rw [hfd] at h
          obtain ⟨hste, l1, l2, l3⟩ := ih4 h
          rw [hscan, hL, hLc, hLu]
          refine ⟨by rw [hste, seenPlus_some, seenPlus_none], ?_, l2, l3⟩
          simp only [seenPlus_none, List.length_cons]
          simp only [seenPlus_some, List.length_cons] at l1
          omega
    | false =>
      cases hc : c.IsCpu d with
      | true =>
        have hcls : classOf c d = DevClass.cpu := by simp [classOf, hg, hc]
        have hL := listOfClass_cons_eq c DevClass.cpu d rest hcls
        have hLg := listOfClass_cons_ne c DevClass.gpu d rest (by rw [hcls]; simp)
        have hLu := listOfClass_cons_ne c DevClass.unknown d rest
          (by rw [hcls]; simp)
        cases sc with
        | some c0 =>
          have hfd : firstDoubled c (d :: rest) sg.isSome
              (some c0 : Option DeviceId).isSome su.isSome
              = some DevClass.cpu := by
            simp [firstDoubled, hg, hc]
          have hscan : scanList c (d :: rest)
              ⟨sg, some c0, su, false, false, false⟩
              = ⟨sg, some c0, su, true, false, false⟩ := by
            simp [scanList, foldEarly, scanStep, hg, hc]
          refine ⟨fun h => ?_, fun _ => ?_, fun h => ?_, fun h => ?_⟩
          · rw [hfd] at h; simp at h
          · refine ⟨by rw [hscan], by rw [hscan], by rw [hscan], ?_⟩
            rw [hL]
            simp only [seenPlus_some, List.length_cons]
            omega
          · rw [hfd] at h; simp at h
          · rw [hfd] at h; simp at h
        | none =>
          have hfd : firstDoubled c (d :: rest) sg.isSome
              (none : Option DeviceId).isSome su.isSome
              = firstDoubled c rest sg.isSome true su.isSome := by
            simp [firstDoubled, hg, hc]
          have hscan : scanList c (d :: rest) ⟨sg, none, su, false, false, false⟩
              = scanList c rest ⟨sg, some d, su, false, false, false⟩ := by
            simp [scanList, foldEarly, scanStep, hg, hc]
          obtain ⟨ih1, ih2, ih3, ih4⟩ := ih sg (some d) su
          refine ⟨fun h => ?_, fun h => ?_, fun h => ?_, fun h => ?_⟩
          · rw [hfd] at h
            obtain ⟨f1, f2, f3, f4⟩ := ih1 h
            rw [hscan]
            refine ⟨f1, f2, f3, ?_⟩
            rw [hLg]
            exact f4
          · rw [hfd] at h
            obtain ⟨f1, f2, f3, f4⟩ := ih2 h
            rw [hscan]
            refine ⟨f1, f2, f3, ?_⟩
            rw [hL]
            simp only [seenPlus_none, List.length_cons]
            simp only [seenPlus_some, List.length_cons] at f4
            omega
          · rw [hfd] at h
            obtain ⟨f1, f2, f3, f4⟩ := ih3 h
            rw [hscan]
            refine ⟨f1, f2, f3, ?_⟩
            rw [hLu]
            exact f4
          · rw [hfd] at h
            obtain ⟨hste, l1, l2, l3⟩ := ih4 h
            rw [hscan, hL, hLg, hLu]
            refine ⟨by rw [hste, seenPlus_some, seenPlus_none], l1, ?_, l3⟩
            simp only [seenPlus_none, List.length_cons]
            simp only [seenPlus_some, List.length_cons] at l2
            omega
      | false =>
        have hcls : classOf c d = DevClass.unknown := by simp [classOf, hg, hc]
        have hL := listOfClass_cons_eq c DevClass.unknown d rest hcls
        have hLg := listOfClass_cons_ne c DevClass.gpu d rest (by rw [hcls]; simp)
        have hLc := listOfClass_cons_ne c DevClass.cpu d rest (by rw [hcls]; simp)
        cases su with
        | some u0 =>
          have hfd : firstDoubled c (d :: rest) sg.isSome sc.isSome
              (some u0 : Option DeviceId).isSome = some DevClass.unknown := by
            simp [firstDoubled, hg, hc]
          have hscan : scanList c (d :: rest)
              ⟨sg, sc, some u0, false, false, false⟩
              = ⟨sg, sc, some u0, false, false, true⟩ := by
            simp [scanList, foldEarly, scanStep, hg, hc]
          refine ⟨fun h => ?_, fun h => ?_, fun _ => ?_, fun h => ?_⟩
          · rw [hfd] at h; simp at h
          · rw [hfd] at h; simp at h
          · refine ⟨by rw [hscan], by rw [hscan], by rw [hscan], ?_⟩
            rw [hL]
            simp only [seenPlus_some, List.length_cons]
            omega
          · rw [hfd] at h; simp at h
        | none =>
          have hfd : firstDoubled c (d :: rest) sg.isSome sc.isSome
              (none : Option DeviceId).isSome
              = firstDoubled c rest sg.isSome sc.isSome true := by
            simp [firstDoubled, hg, hc]
          have hscan : scanList c (d :: rest) ⟨sg, sc, none, false, false, false⟩
              = scanList c rest ⟨sg, sc, some d, false, false, false⟩ := by
            simp [scanList, foldEarly, scanStep, hg, hc]
          obtain ⟨ih1, ih2, ih3, ih4⟩ := ih sg sc (some d)
          refine ⟨fun h => ?_, fun h => ?_, fun h => ?_, fun h => ?_⟩
          · rw [hfd] at h
            obtain ⟨f1, f2, f3, f4⟩ := ih1 h
            rw [hscan]
            refine ⟨f1, f2, f3, ?_⟩
            rw [hLg]
            exact f4
          · rw [hfd] at h
            obtain ⟨f1, f2, f3, f4⟩ := ih2 h
            rw [hscan]
            refine ⟨f1, f2, f3, ?_⟩
            rw [hLc]
            exact f4
          · rw [hfd] at h
            obtain ⟨f1, f2, f3, f4⟩ := ih3 h
            rw [hscan]
            refine ⟨f1, f2, f3, ?_⟩
            rw [hL]
            simp only [seenPlus_none, List.length_cons]
            simp only [seenPlus_some, List.length_cons] at f4
            omega
          · rw [hfd] at h
            obtain ⟨hste, l1, l2, l3⟩ := ih4 h
            rw [hscan, hL, hLg, hLc]
            refine ⟨by rw [hste, seenPlus_some, seenPlus_none], l1, l2, ?_⟩
            simp only [seenPlus_none, List.length_cons]
            simp only [seenPlus_some, List.length_cons] at l3
            omega

/-! ## Membership and emptiness lemmas -/

lemma head?_mem {α : Type} (l : List α) (a : α) (h : l.head? = some a) :
    a ∈ l := by
  cases l with
  | nil => simp at h
  | cons b t =>
    rw [List.head?_cons, Option.some.injEq] at h
    rw [← h]
    exact List.mem_cons_self b t

lemma singleton_of_head?_of_length (l : List DeviceId) (a : DeviceId)
    (h1 : l.head? = some a) (h2 : l.length ≤ 1) : l = [a] := by
  cases l with
  | nil => simp at h1
  | cons b t =>
    rw [List.head?_cons, Option.some.injEq] at h1
    cases t with
    | nil => rw [h1]
    | cons x y => simp at h2

lemma classMembers_mem_memberIds (c : DeviceInfoCache) (s : DeviceSet)
    (cls : DevClass) (x : DeviceId) (h : x ∈ classMembers c s cls) :
    x ∈ s.memberIds :=
  List.mem_of_mem_filter h

lemma classOf_of_mem_classMembers (c : DeviceInfoCache) (s : DeviceSet)
    (cls : DevClass) (x : DeviceId) (h : x ∈ classMembers c s cls) :
    classOf c x = cls := by
  have := (List.mem_filter.mp h).2
  simpa using this

lemma mem_classMembers_of_mem (c : DeviceInfoCache) (s : DeviceSet)
    (x : DeviceId) (h : x ∈ s.memberIds) :
    x ∈ classMembers c s (classOf c x) := by
  apply List.mem_filter.mpr
  exact ⟨h, by simp⟩

lemma isEmpty_false_of_mem (s : DeviceSet) (d : DeviceId)
    (h : d ∈ s.memberIds) : s.IsEmpty = false := by
  have hm : s.member d = true := (List.mem_filter.mp h).2
  cases hE : s.IsEmpty with
  | false => rfl
  | true =>
    exfalso
    unfold DeviceSet.IsEmpty at hE
    have h0 : s.storage_.getD (d / kWordSize) 0 = 0 := by
      rcases getD_zero_mem_or s.storage_ (d / kWordSize) with hmem | h0
      · have := List.all_eq_true.mp hE _ hmem
        simpa using this
      · exact h0
    unfold DeviceSet.member at hm
    rw [h0] at hm
    simp [Nat.zero_testBit] at hm

lemma memberIds_ne_nil (s : DeviceSet) (hwf : s.wf) (hE : s.IsEmpty = false) :
    s.memberIds ≠ [] := by
  have hex : ∃ w ∈ s.storage_, w ≠ 0 := by
    by_contra hcon
    push_neg at hcon
    have hall : s.storage_.all (fun w => w == 0) = true :=
      List.all_eq_true.mpr (by intro x hx; simpa using hcon x hx)
    unfold DeviceSet.IsEmpty at hE
    rw [hall] at hE
    cases hE
  obtain ⟨w, hwmem, hw0⟩ := hex
  obtain ⟨k, hk, hkw⟩ := List.getElem_of_mem hwmem
  obtain ⟨i, hbit, _⟩ := Nat.exists_most_significant_bit hw0
  have hile : 2 ^ i ≤ w := Nat.testBit_implies_ge hbit
  have hi64 : i < kWordSize := by
    have hwlt := hwf w hwmem
    by_contra hge
    push_neg at hge
    have hpow : (2 : Nat) ^ kWordSize ≤ 2 ^ i := Nat.pow_le_pow_right (by omega) hge
    omega
  intro hnil
  have hmem : (kWordSize * k + i) ∈ s.memberIds := by
    unfold DeviceSet.memberIds
    apply List.mem_filter.mpr
    refine ⟨List.mem_range.mpr ?_, ?_⟩
    · simp only [kWordSize] at hi64 ⊢
      omega
    · unfold DeviceSet.member
      have hdiv : (kWordSize * k + i) / kWordSize = k := by
        simp only [kWordSize] at hi64 ⊢
        omega
      have hmod : (kWordSize * k + i) % kWordSize = i := by
        simp only [kWordSize] at hi64 ⊢
        omega
      rw [hdiv, hmod, getD_of_lt _ _ hk, hkw]
      exact hbit
  rw [hnil] at hmem
  simp at hmem

/-! ## The picker in terms of the scanned state -/

lemma forEach_scan (c : DeviceInfoCache) (s : DeviceSet) :
    s.ForEach (scanStep c) initScanState = scannedState c s := rfl

lemma pick_error_of_conflict (c : DeviceInfoCache) (s : DeviceSet)
    (allow : Bool) (e : TfError) (hE : s.IsEmpty = false)
    (hout : pickOutcome c s allow (scannedState c s) = .conflict e) :
    PickDeviceForXla c s allow = .error e := by
  unfold PickDeviceForXla PickDeviceForXlaImpl
  rw [if_neg (by simp [hE]), forEach_scan, hout]

lemma pick_ok_of_picked (c : DeviceInfoCache) (s : DeviceSet) (allow : Bool)
    (d : DeviceId) (hE : s.IsEmpty = false)
    (hout : pickOutcome c s allow (scannedState c s) = .picked d) :
    PickDeviceForXla c s allow = .ok d := by
  unfold PickDeviceForXla PickDeviceForXlaImpl
  rw [if_neg (by simp [hE]), forEach_scan, hout]

lemma pickOutcome_of_ok (c : DeviceInfoCache) (s : DeviceSet) (allow : Bool)
    (d : DeviceId) (hok : PickDeviceForXla c s allow = .ok d) :
    s.IsEmpty = false ∧
    pickOutcome c s allow (scannedState c s) = .picked d := by
  unfold PickDeviceForXla PickDeviceForXlaImpl at hok
  cases hE : s.IsEmpty with
  | true =>
    rw [if_pos (by simp [hE])] at hok
    cases hok
  | false =>
    rw [if_neg (by simp [hE]), forEach_scan] at hok
    refine ⟨rfl, ?_⟩
    cases hout : pickOutcome c s allow (scannedState c s) with
    | conflict e => rw [hout] at hok; cases hok
    | picked d2 =>
      rw [hout] at hok
      simp only [Except.ok.injEq] at hok
      rw [hok]

lemma pickOutcome_mulc (c : DeviceInfoCache) (s : DeviceSet) (allow : Bool)
    (st : ScanState) (h : st.multiple_cpu_devices = true) :
    pickOutcome c s allow st = .conflict (.multipleCpuDevices (c.DebugString s)) := by
  unfold pickOutcome
  rw [if_pos h]

lemma pickOutcome_mulg (c : DeviceInfoCache) (s : DeviceSet) (allow : Bool)
    (st : ScanState) (h1 : st.multiple_cpu_devices = false)
    (h2 : st.multiple_gpu_devices = true) :
    pickOutcome c s allow st = .conflict (.multipleGpuDevices (c.DebugString s)) := by
  unfold pickOutcome
  rw [if_neg (by simp [h1]), if_pos h2]

lemma pickOutcome_mulu (c : DeviceInfoCache) (s : DeviceSet) (allow : Bool)
    (st : ScanState) (h1 : st.multiple_cpu_devices = false)
    (h2 : st.multiple_gpu_devices = false)
    (h3 : st.multiple_unknown_devices = true) :
    pickOutcome c s allow st =
      .conflict (.multipleUnknownDevices (c.DebugString s)) := by
  unfold pickOutcome
  rw [if_neg (by simp [h1]), if_neg (by simp [h2]), if_pos h3]

lemma pickOutcome_state (c : DeviceInfoCache) (s : DeviceSet) (allow : Bool)
    (gh ch uh : Option DeviceId) :
    pickOutcome c s allow ⟨gh, ch, uh, false, false, false⟩ =
      (match uh, gh with
       | some u, some g =>
         .conflict (.unknownAndGpu (c.GetNameFor u) (c.GetNameFor g))
       | some u, none =>
         if allow then .picked u
         else
           match ch with
           | some cp =>
             .conflict (.unknownAndCpu (c.GetNameFor u) (c.GetNameFor cp))
           | none => .picked u
       | none, some g => .picked g
       | none, none => .picked (ch.getD 0)) := by
  cases gh <;> cases ch <;> cases uh <;> cases allow <;> rfl

/-! ## Scan characterization at the initial state -/

lemma scanned_some_gpu (c : DeviceInfoCache) (s : DeviceSet)
    (h : firstDoubled c s.memberIds false false false = some DevClass.gpu) :
    (scannedState c s).multiple_gpu_devices = true ∧
    (scannedState c s).multiple_cpu_devices = false ∧
    (scannedState c s).multiple_unknown_devices = false ∧
    2 ≤ classCount c s DevClass.gpu :=
  (scan_master c s.memberIds none none none).1 h

lemma scanned_some_cpu (c : DeviceInfoCache) (s : DeviceSet)
    (h : firstDoubled c s.memberIds false false false = some DevClass.cpu) :
    (scannedState c s).multiple_cpu_devices = true ∧
    (scannedState c s).multiple_gpu_devices = false ∧
    (scannedState c s).multiple_unknown_devices = false ∧
    2 ≤ classCount c s DevClass.cpu :=
  (scan_master c s.memberIds none none none).2.1 h

lemma scanned_some_unknown (c : DeviceInfoCache) (s : DeviceSet)
    (h : firstDoubled c s.memberIds false false false = some DevClass.unknown) :
    (scannedState c s).multiple_unknown_devices = true ∧
    (scannedState c s).multiple_cpu_devices = false ∧
    (scannedState c s).multiple_gpu_devices = false ∧
    2 ≤ classCount c s DevClass.unknown :=
  (scan_master c s.memberIds none none none).2.2.1 h

lemma scanned_none (c : DeviceInfoCache) (s : DeviceSet)
    (h : firstDoubled c s.memberIds false false false = none) :
    scannedState c s =
      ⟨(classMembers c s DevClass.gpu).head?,
       (classMembers c s DevClass.cpu).head?,
       (classMembers c s DevClass.unknown).head?,
       false, false, false⟩ ∧
    classCount c s DevClass.gpu ≤ 1 ∧
    classCount c s DevClass.cpu ≤ 1 ∧
    classCount c s DevClass.unknown ≤ 1 :=
  (scan_master c s.memberIds none none none).2.2.2 h

lemma firstDoubled_none_of_counts (c : DeviceInfoCache) (s : DeviceSet)
    (h1 : classCount c s DevClass.gpu ≤ 1)
    (h2 : classCount c s DevClass.cpu ≤ 1)
    (h3 : classCount c s DevClass.unknown ≤ 1) :
    firstDoubled c s.memberIds false false false = none := by
  cases hfd : firstDoubled c s.memberIds false false false with
  | none => rfl
  | some cls =>
    exfalso
    cases cls with
    | gpu => have := (scanned_some_gpu c s hfd).2.2.2; omega
    | cpu => have := (scanned_some_cpu c s hfd).2.2.2; omega
    | unknown => have := (scanned_some_unknown c s hfd).2.2.2; omega

lemma memberIds_ne_nil_of_firstDoubled (c : DeviceInfoCache) (s : DeviceSet)
    (cls : DevClass)
    (h : firstDoubled c s.memberIds false false false = some cls) :
    s.memberIds ≠ [] := by
  intro hnil
  rw [hnil] at h
  simp [firstDoubled] at h

/-! ## C1: the order in which conflicts are reported -/

lemma pick_error_multiplicity (c : DeviceInfoCache) (s : DeviceSet)
    (allow : Bool) (cls : DevClass)
    (hfd : firstDoubled c s.memberIds false false false = some cls) :
    PickDeviceForXla c s allow =
      .error (multiplicityError cls (c.DebugString s)) := by
  obtain ⟨d, hd⟩ := List.exists_mem_of_ne_nil _
    (memberIds_ne_nil_of_firstDoubled c s cls hfd)
  have hE := isEmpty_false_of_mem s d hd
  cases cls with
  | gpu =>
    obtain ⟨f1, f2, f3, _⟩ := scanned_some_gpu c s hfd
    exact pick_error_of_conflict c s allow _ hE
      (pickOutcome_mulg c s allow _ f2 f1)
  | cpu =>
    obtain ⟨f1, f2, f3, _⟩ := scanned_some_cpu c s hfd
    exact pick_error_of_conflict c s allow _ hE
      (pickOutcome_mulc c s allow _ f1)
  | unknown =>
    obtain ⟨f1, f2, f3, _⟩ := scanned_some_unknown c s hfd
    exact pick_error_of_conflict c s allow _ hE
      (pickOutcome_mulu c s allow _ f2 f3 f1)

lemma pick_error_unknown_gpu (c : DeviceInfoCache) (s : DeviceSet)
    (allow : Bool) (u g : DeviceId)
    (hfd : firstDoubled c s.memberIds false false false = none)
    (hu : (classMembers c s DevClass.unknown).head? = some u)
    (hg : (classMembers c s DevClass.gpu).head? = some g) :
    PickDeviceForXla c s allow =
      .error (.unknownAndGpu (c.GetNameFor u) (c.GetNameFor g)) := by
  have hE := isEmpty_false_of_mem s u
    (classMembers_mem_memberIds c s DevClass.unknown u (head?_mem _ _ hu))
  obtain ⟨hst, _, _, _⟩ := scanned_none c s hfd
  apply pick_error_of_conflict c s allow _ hE
  rw [hst, pickOutcome_state, hu, hg]

lemma pick_error_unknown_cpu (c : DeviceInfoCache) (s : DeviceSet)
    (u cp : DeviceId)
    (hfd : firstDoubled c s.memberIds false false false = none)
    (hu : (classMembers c s DevClass.unknown).head? = some u)
    (hgnil : classMembers c s DevClass.gpu = [])
    (hcp : (classMembers c s DevClass.cpu).head? = some cp) :
    PickDeviceForXla c s false =
      .error (.unknownAndCpu (c.GetNameFor u) (c.GetNameFor cp)) := by
  have hE := isEmpty_false_of_mem s u
    (classMembers_mem_memberIds c s DevClass.unknown u (head?_mem _ _ hu))
  obtain ⟨hst, _, _, _⟩ := scanned_none c s hfd
  apply pick_error_of_conflict c s false _ hE
  rw [hst, pickOutcome_state, hu, hgnil, hcp]
  rfl


/-- C1 (amended): after the classification pass, the reported conflict is
determined as follows.  Because the pass stops at the first bucket to receive
a second device (in ascending id order), at most one multiplicity flag can be
set, and when some bucket doubles (`firstDoubled` is `some cls`) the
must-succeed form reports exactly that bucket's multiplicity error — so when a
multiple-CPU and a multiple-GPU conflict both hold, the one whose second
device comes first in id order wins, not the GPU one unconditionally.  When no
bucket doubles, unknown+GPU is reported in preference to unknown+CPU, the
latter only when mixing is not allowed. -/
theorem pick_conflict_error_order (c : DeviceInfoCache) (s : DeviceSet)
    (allow : Bool) :
    (∀ cls, firstDoubled c s.memberIds false false false = some cls →
       PickDeviceForXla c s allow =
         .error (multiplicityError cls (c.DebugString s))) ∧
    (∀ u g, firstDoubled c s.memberIds false false false = none →
       (classMembers c s DevClass.unknown).head? = some u →
       (classMembers c s DevClass.gpu).head? = some g →
       PickDeviceForXla c s allow =
         .error (.unknownAndGpu (c.GetNameFor u) (c.GetNameFor g))) ∧
    (∀ u cp, allow = false →
       firstDoubled c s.memberIds false false false = none →
       (classMembers c s DevClass.unknown).head? = some u →
       classMembers c s DevClass.gpu = [] →
       (classMembers c s DevClass.cpu).head? = some cp →
       PickDeviceForXla c s allow =
         .error (.unknownAndCpu (c.GetNameFor u) (c.GetNameFor cp))) := by
  refine ⟨fun cls hfd => pick_error_multiplicity c s allow cls hfd,
          fun u g hfd hu hg => pick_error_unknown_gpu c s allow u g hfd hu hg,
          fun u cp hallow hfd hu hgnil hcp => ?_⟩
  subst hallow
  exact pick_error_unknown_cpu c s u cp hfd hu hgnil hcp

/-- C1 witness: on the set holding two CPU devices (ids 0, 1) and two GPU
devices (ids 2, 3), the CPU bucket doubles first, and the must-succeed form
reports the multiple-CPU error. -/
theorem pick_conflict_error_order_witness :
    firstDoubled cacheTwoCpuTwoGpu setFour.memberIds false false false =
        some DevClass.cpu ∧
    PickDeviceForXla cacheTwoCpuTwoGpu setFour false =
      .error (multiplicityError DevClass.cpu
        (cacheTwoCpuTwoGpu.DebugString setFour)) := by
  have h : firstDoubled cacheTwoCpuTwoGpu setFour.memberIds false false false =
      some DevClass.cpu := by decide
  exact ⟨h, (pick_conflict_error_order cacheTwoCpuTwoGpu setFour false).1
    DevClass.cpu h⟩

/-- C1 counterexample: a set on which both a multiple-GPU and a multiple-CPU
conflict hold simultaneously (two CPUs at ids 0 and 1, two GPUs at ids 2 and
3), yet the reported error is the multiple-CPU one, not the multiple-GPU one
the claimed priority order demands. -/
theorem pick_gpu_first_counterexample :
    2 ≤ classCount cacheTwoCpuTwoGpu setFour DevClass.gpu ∧
    2 ≤ classCount cacheTwoCpuTwoGpu setFour DevClass.cpu ∧
    PickDeviceForXla cacheTwoCpuTwoGpu setFour false =
      .error (.multipleCpuDevices "[/device:CPU:0]") ∧
    PickDeviceForXla cacheTwoCpuTwoGpu setFour false ≠
      .error (.multipleGpuDevices (cacheTwoCpuTwoGpu.DebugString setFour)) := by
  have heval : PickDeviceForXla cacheTwoCpuTwoGpu setFour false =
      .error (.multipleCpuDevices "[/device:CPU:0]") := rfl
  refine ⟨by decide, by decide, heval, ?_⟩
  rw [heval]
  intro hcontra
  simp at hcontra

/-! ## C2: selection priority on conflict-free sets -/

lemma firstDoubled_none_of_picked (c : DeviceInfoCache) (s : DeviceSet)
    (allow : Bool) (d : DeviceId)
    (hpo : pickOutcome c s allow (scannedState c s) = .picked d) :
    firstDoubled c s.memberIds false false false = none := by
  cases hfd : firstDoubled c s.memberIds false false false with
  | none => rfl
  | some cls =>
    exfalso
    cases cls with
    | gpu =>
      obtain ⟨f1, f2, f3, _⟩ := scanned_some_gpu c s hfd
      rw [pickOutcome_mulg c s allow _ f2 f1] at hpo
      cases hpo
    | cpu =>
      obtain ⟨f1, f2, f3, _⟩ := scanned_some_cpu c s hfd
      rw [pickOutcome_mulc c s allow _ f1] at hpo
      cases hpo
    | unknown =>
      obtain ⟨f1, f2, f3, _⟩ := scanned_some_unknown c s hfd
      rw [pickOutcome_mulu c s allow _ f2 f3 f1] at hpo
      cases hpo

/-- C2: on every set on which no conflict fires the picker selects by
priority GPU, then unknown, then CPU: a returned device equals the GPU member
when one is present, else the unknown member when one is present, else the
unique CPU member; with exactly one GPU, one CPU and no unknown device the
GPU is returned; and a CPU-classified device is returned only when the set
has no GPU and no unknown-class member. -/
theorem pick_success_priority (c : DeviceInfoCache) (s : DeviceSet)
    (allow : Bool) :
    (∀ d g, PickDeviceForXla c s allow = .ok d →
       (classMembers c s DevClass.gpu).head? = some g → d = g) ∧
    (∀ d u, PickDeviceForXla c s allow = .ok d →
       classMembers c s DevClass.gpu = [] →
       (classMembers c s DevClass.unknown).head? = some u → d = u) ∧
    (∀ d, s.wf → PickDeviceForXla c s allow = .ok d →
       classMembers c s DevClass.gpu = [] →
       classMembers c s DevClass.unknown = [] →
       classMembers c s DevClass.cpu = [d]) ∧
    (∀ g, classMembers c s DevClass.gpu = [g] →
       classCount c s DevClass.cpu = 1 →
       classCount c s DevClass.unknown = 0 →
       PickDeviceForXla c s allow = .ok g) ∧
    (∀ d, PickDeviceForXla c s allow = .ok d →
       classOf c d = DevClass.cpu →
       classCount c s DevClass.gpu = 0 ∧
       classCount c s DevClass.unknown = 0) := by
  refine ⟨?_, ?_, ?_, ?_, ?_⟩
  · intro d g hok hg
    obtain ⟨hE, hpo⟩ := pickOutcome_of_ok c s allow d hok
    obtain ⟨hst, _, _, _⟩ :=
      scanned_none c s (firstDoubled_none_of_picked c s allow d hpo)
    rw [hst, pickOutcome_state, hg] at hpo
    cases hu : (classMembers c s DevClass.unknown).head? with
    | some u => rw [hu] at hpo; cases hpo
    | none =>
      rw [hu] at hpo
      simp only [PickResult.picked.injEq] at hpo
      rw [hpo]
  · intro d u hok hgnil hu
    obtain ⟨hE, hpo⟩ := pickOutcome_of_ok c s allow d hok
    obtain ⟨hst, _, _, _⟩ :=
      scanned_none c s (firstDoubled_none_of_picked c s allow d hpo)
    rw [hst, pickOutcome_state, hu, hgnil] at hpo
    simp only [List.head?_nil] at hpo
    cases allow with
    | true =>
      simp only [if_true, PickResult.picked.injEq] at hpo
      rw [hpo]
    | false =>
      simp only [Bool.false_eq_true, if_false] at hpo
      cases hch : (classMembers c s DevClass.cpu).head? with
      | some cp => rw [hch] at hpo; cases hpo
      | none =>
        rw [hch] at hpo
        simp only [PickResult.picked.injEq] at hpo
        rw [hpo]
  · intro d hwf hok hgnil hunil
    obtain ⟨hE, hpo⟩ := pickOutcome_of_ok c s allow d hok
    obtain ⟨hst, _, hc1, _⟩ :=
      scanned_none c s (firstDoubled_none_of_picked c s allow d hpo)
    rw [hst, pickOutcome_state, hgnil, hunil] at hpo
    simp only [List.head?_nil] at hpo
    obtain ⟨d0, hd0⟩ :=
      List.exists_mem_of_ne_nil _ (memberIds_ne_nil s hwf hE)
    have hd0c := mem_classMembers_of_mem c s d0 hd0
    have hccne : classMembers c s DevClass.cpu ≠ [] := by
      cases hcls : classOf c d0 with
      | gpu => rw [hcls] at hd0c; rw [hgnil] at hd0c; simp at hd0c
      | unknown => rw [hcls] at hd0c; rw [hunil] at hd0c; simp at hd0c
      | cpu =>
        rw [hcls] at hd0c
        intro hnil
        rw [hnil] at hd0c
        simp at hd0c
    cases hch : (classMembers c s DevClass.cpu).head? with
    | none => exact absurd (List.head?_eq_none_iff.mp hch) hccne
    | some cp =>
      rw [hch] at hpo
      simp only [Option.getD_some, PickResult.picked.injEq] at hpo
      rw [hpo] at hch
      exact singleton_of_head?_of_length _ d hch hc1
  · intro g hgl hcc hcu
    have hfd := firstDoubled_none_of_counts c s
      (by unfold classCount; rw [hgl]; simp) (by omega) (by omega)
    obtain ⟨hst, _, _, _⟩ := scanned_none c s hfd
    have hE := isEmpty_false_of_mem s g
      (classMembers_mem_memberIds c s DevClass.gpu g
        (by rw [hgl]; exact List.mem_cons_self g []))
    have hunil : classMembers c s DevClass.unknown = [] :=
      List.length_eq_zero.mp hcu
    apply pick_ok_of_picked c s allow g hE
    rw [hst, pickOutcome_state, hgl, hunil]
    rfl
  · intro d hok hcls
    obtain ⟨hE, hpo⟩ := pickOutcome_of_ok c s allow d hok
    obtain ⟨hst, _, _, _⟩ :=
      scanned_none c s (firstDoubled_none_of_picked c s allow d hpo)
    rw [hst, pickOutcome_state] at hpo
    cases hu : (classMembers c s DevClass.unknown).head? with
    | some u =>
      exfalso
      have hucls := classOf_of_mem_classMembers c s DevClass.unknown u
        (head?_mem _ _ hu)
      rw [hu] at hpo
      cases hg : (classMembers c s DevClass.gpu).head? with
      | some g => rw [hg] at hpo; cases hpo
      | none =>
        rw [hg] at hpo
        have hdu : d = u := by
          cases allow with
          | true =>
            simp only [if_true, PickResult.picked.injEq] at hpo
            rw [hpo]
          | false =>
            simp only [Bool.false_eq_true, if_false] at hpo
            cases hch : (classMembers c s DevClass.cpu).head? with
            | some cp => rw [hch] at hpo; cases hpo
            | none =>
              rw [hch] at hpo
              simp only [PickResult.picked.injEq] at hpo
              rw [hpo]
        rw [hdu, hucls] at hcls
        cases hcls
    | none =>
      rw [hu] at hpo
      have hcu : classCount c s DevClass.unknown = 0 := by
        unfold classCount
        rw [List.head?_eq_none_iff.mp hu]
        rfl
      cases hg : (classMembers c s DevClass.gpu).head? with
      | some g =>
        exfalso
        have hgcls := classOf_of_mem_classMembers c s DevClass.gpu g
          (head?_mem _ _ hg)
        rw [hg] at hpo
        simp only [PickResult.picked.injEq] at hpo
        rw [← hpo, hgcls] at hcls
        cases hcls
      | none =>
        refine ⟨?_, hcu⟩
        unfold classCount
        rw [List.head?_eq_none_iff.mp hg]
        rfl

/-- C2 witness: on the set with the CPU device id 0 and the GPU device id 1,
the picker returns the GPU device. -/
theorem pick_success_priority_witness :
    PickDeviceForXla cacheCpuGpu setCpuGpu false = .ok 1 :=
  (pick_success_priority cacheCpuGpu setCpuGpu false).2.2.2.1 1
    (by decide) (by decide) (by decide)

/-! ## C3: unknown+GPU always fails; unknown+CPU is flag-controlled -/

/-- C3: every set holding at least one unknown-class device and at least one
GPU device makes picking fail regardless of the mixing flag; a set holding
exactly one unknown-class device, exactly one CPU device and no GPU device
makes picking fail when mixing is not allowed, and succeed returning the
unknown-class device when it is. -/
theorem pick_unknown_mixing (c : DeviceInfoCache) (s : DeviceSet) :
    (∀ allow, 1 ≤ classCount c s DevClass.unknown →
       1 ≤ classCount c s DevClass.gpu →
       ∃ e, PickDeviceForXla c s allow = .error e) ∧
    (∀ u, classMembers c s DevClass.unknown = [u] →
       classCount c s DevClass.cpu = 1 →
       classCount c s DevClass.gpu = 0 →
       (∃ e, PickDeviceForXla c s false = .error e) ∧
       PickDeviceForXla c s true = .ok u) := by
  constructor
  · intro allow hcu hcg
    cases hfd : firstDoubled c s.memberIds false false false with
    | some cls =>
      exact ⟨multiplicityError cls (c.DebugString s),
        pick_error_multiplicity c s allow cls hfd⟩
    | none =>
      have hune : classMembers c s DevClass.unknown ≠ [] := by
        intro hnil
        unfold classCount at hcu
        rw [hnil] at hcu
        simp at hcu
      have hgne : classMembers c s DevClass.gpu ≠ [] := by
        intro hnil
        unfold classCount at hcg
        rw [hnil] at hcg
        simp at hcg
      cases hu : (classMembers c s DevClass.unknown).head? with
      | none => exact absurd (List.head?_eq_none_iff.mp hu) hune
      | some u =>
        cases hg : (classMembers c s DevClass.gpu).head? with
        | none => exact absurd (List.head?_eq_none_iff.mp hg) hgne
        | some g =>
          exact ⟨.unknownAndGpu (c.GetNameFor u) (c.GetNameFor g),
            pick_error_unknown_gpu c s allow u g hfd hu hg⟩
  · intro u hul hcc hcg
    have hu : (classMembers c s DevClass.unknown).head? = some u := by
      rw [hul]
      rfl
    have hgnil : classMembers c s DevClass.gpu = [] :=
      List.length_eq_zero.mp hcg
    obtain ⟨cp, hcpl⟩ := List.length_eq_one.mp hcc
    have hcp : (classMembers c s DevClass.cpu).head? = some cp := by
      rw [hcpl]
      rfl
    have hfd := firstDoubled_none_of_counts c s (by omega)
      (by omega) (by unfold classCount; rw [hul]; simp)
    have hE := isEmpty_false_of_mem s u
      (classMembers_mem_memberIds c s DevClass.unknown u (head?_mem _ _ hu))
    obtain ⟨hst, _, _, _⟩ := scanned_none c s hfd
    constructor
    · exact ⟨.unknownAndCpu (c.GetNameFor u) (c.GetNameFor cp),
        pick_error_unknown_cpu c s u cp hfd hu hgnil hcp⟩
    · apply pick_ok_of_picked c s true u hE
      rw [hst, pickOutcome_state, hu, hgnil]
      rfl

/-- C3 witness: with the CPU device id 0 and the unknown-class device id 1 in
the set, picking fails with the flag off and returns the unknown-class device
with the flag on. -/
theorem pick_unknown_mixing_witness :
    (∃ e, PickDeviceForXla cacheCpuUnknown ⟨[3]⟩ false = .error e) ∧
    PickDeviceForXla cacheCpuUnknown ⟨[3]⟩ true = .ok 1 :=
  (pick_unknown_mixing cacheCpuUnknown ⟨[3]⟩).2 1 (by decide) (by decide)
    (by decide)

/-! ## C10: the picker depends only on names and CPU/GPU classification -/

lemma scanList_congr (c1 c2 : DeviceInfoCache) (ids : List DeviceId)
    (hag : ∀ d ∈ ids, c1.IsGpu d = c2.IsGpu d ∧ c1.IsCpu d = c2.IsCpu d) :
    ∀ st, scanList c1 ids st = scanList c2 ids st := by
  induction ids with
  | nil => intro st; rfl
  | cons d rest ih =>
    intro st
    have hd := hag d (List.mem_cons_self d rest)
    have hstep : scanStep c1 st d = scanStep c2 st d := by
      unfold scanStep
      rw [hd.1, hd.2]
    have ihr := ih (fun x hx => hag x (List.mem_cons_of_mem d hx))
    show (if (scanStep c1 st d).2 then scanList c1 rest (scanStep c1 st d).1
          else (scanStep c1 st d).1) =
         (if (scanStep c2 st d).2 then scanList c2 rest (scanStep c2 st d).1
          else (scanStep c2 st d).1)
    rw [hstep]
    by_cases hcont : (scanStep c2 st d).2 = true
    · rw [if_pos hcont, if_pos hcont]
      exact ihr _
    · rw [if_neg hcont, if_neg hcont]

lemma debugString_congr (c1 c2 : DeviceInfoCache) (s : DeviceSet)
    (hnm : ∀ d ∈ s.memberIds, c1.GetNameFor d = c2.GetNameFor d) :
    c1.DebugString s = c2.DebugString s := by
  unfold DeviceInfoCache.DebugString DeviceSet.ForEach
  cases hmem : s.memberIds with
  | nil => rfl
  | cons d rest =>
    have hd := hnm d (by rw [hmem]; exact List.mem_cons_self d rest)
    simp [foldEarly, hd]

/-- C10: the outcome of both picker forms depends only on the names and the
`IsCpu`/`IsGpu` classification of the member ids: two caches agreeing on
those attributes for every member of the set — in particular caches that
differ only in their memoized compilation-registration entries — produce
identical results. -/
theorem pick_classification_only (c1 c2 : DeviceInfoCache) (s : DeviceSet)
    (allow : Bool)
    (hag : ∀ d ∈ s.memberIds,
      c1.IsCpu d = c2.IsCpu d ∧ c1.IsGpu d = c2.IsGpu d ∧
      c1.GetNameFor d = c2.GetNameFor d) :
    PickDeviceForXla c1 s allow = PickDeviceForXla c2 s allow ∧
    CanPickDeviceForXla c1 s allow = CanPickDeviceForXla c2 s allow := by
  have hscan : scannedState c1 s = scannedState c2 s :=
    scanList_congr c1 c2 s.memberIds
      (fun d hd => ⟨(hag d hd).2.1, (hag d hd).1⟩) initScanState
  have hdbg : c1.DebugString s = c2.DebugString s :=
    debugString_congr c1 c2 s (fun d hd => (hag d hd).2.2)
  suffices himpl : PickDeviceForXlaImpl c1 s allow =
      PickDeviceForXlaImpl c2 s allow by
    unfold PickDeviceForXla CanPickDeviceForXla
    rw [himpl]
    exact ⟨rfl, rfl⟩
  unfold PickDeviceForXlaImpl
  cases hE : s.IsEmpty with
  | true => rfl
  | false =>
    rw [if_neg (by simp), if_neg (by simp), forEach_scan, forEach_scan,
      ← hscan]
    suffices hout : pickOutcome c1 s allow (scannedState c1 s) =
        pickOutcome c2 s allow (scannedState c1 s) by rw [hout]
    cases hfd : firstDoubled c1 s.memberIds false false false with
    | some cls =>
      cases cls with
      | gpu =>
        obtain ⟨f1, f2, f3, _⟩ := scanned_some_gpu c1 s hfd
        rw [pickOutcome_mulg c1 s allow _ f2 f1,
          pickOutcome_mulg c2 s allow _ f2 f1, hdbg]
      | cpu =>
        obtain ⟨f1, f2, f3, _⟩ := scanned_some_cpu c1 s hfd
        rw [pickOutcome_mulc c1 s allow _ f1,
          pickOutcome_mulc c2 s allow _ f1, hdbg]
      | unknown =>
        obtain ⟨f1, f2, f3, _⟩ := scanned_some_unknown c1 s hfd
        rw [pickOutcome_mulu c1 s allow _ f2 f3 f1,
          pickOutcome_mulu c2 s allow _ f2 f3 f1, hdbg]
    | none =>
      obtain ⟨hst, _, _, _⟩ := scanned_none c1 s hfd
      rw [hst, pickOutcome_state, pickOutcome_state]
      cases hu : (classMembers c1 s DevClass.unknown).head? with
      | none => cases (classMembers c1 s DevClass.gpu).head? <;> rfl
      | some u =>
        have hnmu := (hag u (classMembers_mem_memberIds c1 s
          DevClass.unknown u (head?_mem _ _ hu))).2.2
        cases hg : (classMembers c1 s DevClass.gpu).head? with
        | some g =>
          have hnmg := (hag g (classMembers_mem_memberIds c1 s
            DevClass.gpu g (head?_mem _ _ hg))).2.2
          show PickResult.conflict
              (TfError.unknownAndGpu (c1.GetNameFor u) (c1.GetNameFor g)) =
            PickResult.conflict
              (TfError.unknownAndGpu (c2.GetNameFor u) (c2.GetNameFor g))
          rw [hnmu, hnmg]
        | none =>
          cases allow with
          | true => rfl
          | false =>
            cases hch : (classMembers c1 s DevClass.cpu).head? with
            | none => rfl
            | some cp =>
              have hnmc := (hag cp (classMembers_mem_memberIds c1 s
                DevClass.cpu cp (head?_mem _ _ hch))).2.2
              show PickResult.conflict
                  (TfError.unknownAndCpu (c1.GetNameFor u) (c1.GetNameFor cp)) =
                PickResult.conflict
                  (TfError.unknownAndCpu (c2.GetNameFor u) (c2.GetNameFor cp))
              rw [hnmu, hnmc]

/-- C10 witness: two caches identical in names and CPU/GPU classification but
with different memoized compilation-registration entries give identical
results for both picker forms. -/
theorem pick_classification_only_witness :
    PickDeviceForXla cacheCpuGpu setCpuGpu false =
      PickDeviceForXla cacheCpuGpuAltReg setCpuGpu false ∧
    CanPickDeviceForXla cacheCpuGpu setCpuGpu false =
      CanPickDeviceForXla cacheCpuGpuAltReg setCpuGpu false :=
  pick_classification_only cacheCpuGpu cacheCpuGpuAltReg setCpuGpu false
    (by decide)
